import Mathlib

set_option linter.unusedVariables false

/-!
Verification development for the ComputeFabric Job Scheduling & Settlement
Engine.  The definitions below are a shallow embedding of the orchestrator's
TypeScript source: the drizzle-backed `JobQueue` (scheduling/job-queue.ts),
`DockerManager` (containerization/docker-manager.ts), `StripeConnector`
(payment/stripe-connector.ts) and the Express handlers of src/index.ts.
The database is modelled as explicit lists of rows; each SQL statement the
source issues (one SELECT or one UPDATE/INSERT) is one atomic step on that
state; timestamps are milliseconds (`Int`, as `Date.getTime()`); monetary
values are exact rationals (`ℚ`) standing for the JS numbers the source
computes with, with `Math.round` modelled exactly as rounding half toward
positive infinity.
-/

/-- A row of the `jobs` table, as surfaced by `dbJobToJob` (job-queue.ts):
`providerId`, `command`, `startedAt`, `finishedAt` are nullable; `cost`
is the numeric column parsed to a number (0 when null/0.00). -/
structure Job where
  id : String
  userId : String
  providerId : Option String
  dockerImage : String
  command : Option String
  status : String
  createdAt : Int
  startedAt : Option Int
  finishedAt : Option Int
  cost : ℚ
deriving Repr, DecidableEq

/-- A row of the `providers` table (id, optional owner, status, creation
time; the opaque `gpuSpecs` JSON plays no role in the claims). -/
structure Provider where
  id : String
  ownerId : Option String
  status : String
  createdAt : Int
deriving Repr, DecidableEq

/-- A row of the append-only `payments` table. -/
structure Payment where
  id : String
  jobId : String
  amount : ℚ
  status : String
  createdAt : Int
deriving Repr, DecidableEq

/-- The orchestrator's shared database state: the three tables the engine
reads and writes. -/
structure World where
  jobs : List Job
  providers : List Provider
  payments : List Payment
deriving Repr

/-- The row `JobQueue.createJob` inserts: status `queued`, cost 0.00,
null provider/startedAt/finishedAt.  `jobId` stands for the `uuidv4()`
value and `now` for `new Date()`. -/
def newJob (jobId userId dockerImage : String) (command : Option String)
    (now : Int) : Job :=
  { id := jobId, userId := userId, providerId := none,
    dockerImage := dockerImage, command := command, status := "queued",
    createdAt := now, startedAt := none, finishedAt := none, cost := 0 }

/-- `JobQueue.createJob`: the INSERT of the fresh row; the method also
returns the freshly built job object. -/
def createJob (store : List Job) (userId dockerImage : String)
    (command : Option String) (jobId : String) (now : Int) :
    List Job × Job :=
  let job := newJob jobId userId dockerImage command now
  (store ++ [job], job)

/-- Of two rows, the one with the strictly older `createdAt` (first row on
ties), mirroring `ORDER BY created_at` with a stable order. -/
def olderJob (a b : Job) : Job :=
  if b.createdAt < a.createdAt then b else a

/-- `JobQueue.getNextJob`: one SELECT of the oldest row whose status is
`queued` (`WHERE status = 'queued' ORDER BY created_at LIMIT 1`), or
`none` when no queued row exists.  This is a pure read: it does not mark
the row in any way. -/
def getNextJob (store : List Job) : Option Job :=
  match store.filter (fun j => j.status == "queued") with
  | [] => none
  | j :: rest => some (rest.foldl olderJob j)

/-- The field update `assignJob` applies to the matched row: provider set,
status `assigned`, `startedAt = new Date()`.  Note there is no predicate
on the row's previous status. -/
def assignUpdate (providerId : String) (now : Int) (j : Job) : Job :=
  { j with providerId := some providerId, status := "assigned",
           startedAt := some now }

/-- `JobQueue.assignJob`: one UPDATE of every row with the given id
(`WHERE id = jobId` only — the previous status is not checked), followed
by a SELECT of the updated row, which is returned (`none` if the id is
absent). -/
def assignJob (store : List Job) (jobId providerId : String) (now : Int) :
    List Job × Option Job :=
  let store' := store.map fun j =>
    if j.id == jobId then assignUpdate providerId now j else j
  (store', store'.find? fun j => j.id == jobId)

/-- The field update of `markJobRunning`: status `running` and `startedAt`
overwritten with `new Date()`, whatever it held before. -/
def runningUpdate (now : Int) (j : Job) : Job :=
  { j with status := "running", startedAt := some now }

/-- `JobQueue.markJobRunning`: unconditional UPDATE by id (no check of the
row's previous status), then re-SELECT. -/
def markJobRunning (store : List Job) (jobId : String) (now : Int) :
    List Job × Option Job :=
  let store' := store.map fun j =>
    if j.id == jobId then runningUpdate now j else j
  (store', store'.find? fun j => j.id == jobId)

/-- The field update of `markJobCompleted`: status `completed`,
`finishedAt = new Date()`, cost stored. -/
def completedUpdate (cost : ℚ) (now : Int) (j : Job) : Job :=
  { j with status := "completed", finishedAt := some now, cost := cost }

/-- `JobQueue.markJobCompleted`: unconditional UPDATE by id (no check of
the row's previous status), then re-SELECT. -/
def markJobCompleted (store : List Job) (jobId : String) (cost : ℚ)
    (now : Int) : List Job × Option Job :=
  let store' := store.map fun j =>
    if j.id == jobId then completedUpdate cost now j else j
  (store', store'.find? fun j => j.id == jobId)

/-- The field update of `markJobFailed`: status `failed`,
`finishedAt = new Date()`, cost stored. -/
def failedUpdate (cost : ℚ) (now : Int) (j : Job) : Job :=
  { j with status := "failed", finishedAt := some now, cost := cost }

/-- `JobQueue.markJobFailed`: unconditional UPDATE by id, then re-SELECT. -/
def markJobFailed (store : List Job) (jobId : String) (cost : ℚ)
    (now : Int) : List Job × Option Job :=
  let store' := store.map fun j =>
    if j.id == jobId then failedUpdate cost now j else j
  (store', store'.find? fun j => j.id == jobId)

/-- `JobQueue.getJob`: SELECT by id, first row or none. -/
def getJob (store : List Job) (jobId : String) : Option Job :=
  store.find? fun j => j.id == jobId

/-- A character matched by the class `[a-z0-9]` under the regex's `i`
flag (docker-manager.ts uses `/^[a-z0-9]+(\/[a-z0-9]+)*(:[\w][\w.-]{0,127})?$/i`),
i.e. an ASCII letter of either case or a digit. -/
def isAlnumCI (c : Char) : Bool :=
  c.isAlpha || c.isDigit

/-- A character matched by `\w`: ASCII letter, digit or underscore. -/
def isWordChar (c : Char) : Bool :=
  c.isAlpha || c.isDigit || c == '_'

/-- A character matched by `[\w.-]`. -/
def isTagChar (c : Char) : Bool :=
  isWordChar c || c == '.' || c == '-'

/-- The tag group `[\w][\w.-]{0,127}`: a word character followed by at
most 127 further tag characters. -/
def validTag : List Char → Bool
  | [] => false
  | c :: rest => isWordChar c && decide (rest.length ≤ 127) && rest.all isTagChar

/-- One path segment `[a-z0-9]+` (case-insensitive): non-empty, all
alphanumeric. -/
def validSegment (cs : List Char) : Bool :=
  !cs.isEmpty && cs.all isAlnumCI

/-- Split a character list at every occurrence of `sep` (the groups, in
order, separators dropped; yields `[[]]` on the empty input). -/
def splitOnChar (sep : Char) : List Char → List (List Char)
  | [] => [[]]
  | c :: rest =>
    let r := splitOnChar sep rest
    if c == sep then [] :: r
    else
      match r with
      | [] => [[c]]
      | g :: gs => (c :: g) :: gs

/-- The path part `[a-z0-9]+(\/[a-z0-9]+)*`: slash-separated non-empty
alphanumeric segments. -/
def validPath (cs : List Char) : Bool :=
  (splitOnChar '/' cs).all validSegment

/-- `DockerManager.validateImageName`: false for the empty string
(falsiness check), otherwise the anchored regex
`^[a-z0-9]+(\/[a-z0-9]+)*(:[\w][\w.-]{0,127})?$` with the `i` flag.
Because no character class of the regex contains `/` across a segment
boundary or `:` at all, the regex is matched exactly by splitting at the
colons: one part (just a path) or two parts (path then tag); two or more
colons can never match. -/
def validateImageName (imageName : String) : Bool :=
  if imageName == "" then false
  else
    match splitOnChar ':' imageName.toList with
    | [p] => validPath p
    | [p, t] => validPath p && validTag t
    | _ => false

/-- The normalized execution descriptor built by
`DockerManager.generateContainerConfig`. -/
structure ContainerConfig where
  image : String
  command : String
  env : List (String × String)
  volumes : List String
  gpus : Bool
  memoryLimit : String
  cpuLimit : Nat
deriving Repr, DecidableEq

/-- `DockerManager.generateContainerConfig`: throws when
`validateImageName` rejects the image (modelled as `none`), otherwise the
config with the source's defaults (`command || ''`, empty env/volumes,
gpus as given — the handler passes `true` — memory `4g`, 2 CPUs). -/
def generateContainerConfig (image : String) (command : Option String)
    (gpus : Bool) : Option ContainerConfig :=
  if validateImageName image then
    some { image := image, command := command.getD "", env := [],
           volumes := [], gpus := gpus, memoryLimit := "4g", cpuLimit := 2 }
  else none

/-- `StripeConnector.getComputeRate`: the fixed $0.10-per-minute rate. -/
def getComputeRate : ℚ := 0.10

/-- JavaScript's `Math.round`: the nearest integer, halves toward
positive infinity, i.e. `⌊x + 1/2⌋`. -/
def jsRound (x : ℚ) : ℤ := ⌊x + 1/2⌋

/-- The source's `Math.round(v * 100) / 100` two-decimal rounding step. -/
def round2 (v : ℚ) : ℚ := (jsRound (v * 100) : ℚ) / 100

/-- `StripeConnector.calculateJobCost`: duration in minutes
(`durationMs / 1000 / 60`) times the rate, rounded to two decimals.
There is no clamping of negative durations. -/
def calculateJobCost (startTime endTime : Int) : ℚ :=
  round2 (((endTime : ℚ) - (startTime : ℚ)) / 1000 / 60 * getComputeRate)

/-- `StripeConnector.calculateProviderEarnings`: 80% of the job cost,
rounded to two decimals. -/
def calculateProviderEarnings (jobCost : ℚ) : ℚ :=
  round2 (jobCost * 0.8)

/-- The result object a charge returns (`PaymentResult`). -/
structure PaymentResult where
  success : Bool
  paymentId : Option String
  error : Option String
  amount : ℚ
deriving Repr, DecidableEq

/-- `StripeConnector.simulatePayment`: draws success with probability
0.95 (the `Math.random()` sample is the explicit `rand` argument),
ALWAYS inserts one payment row — whatever the amount — and reports the
simulated outcome.  `pid` stands for the generated `uuidv4()`. -/
def simulatePayment (payDb : List Payment) (jobId : String) (amount : ℚ)
    (rand : ℚ) (pid : String) (now : Int) :
    List Payment × PaymentResult :=
  let success := rand < 0.95
  let row : Payment :=
    { id := pid, jobId := jobId, amount := amount,
      status := if success then "succeeded" else "failed", createdAt := now }
  (payDb ++ [row],
   if success then
     { success := true, paymentId := some pid, error := none, amount := amount }
   else
     { success := false, paymentId := some pid,
       error := some "Simulated payment failure", amount := amount })

/-- `StripeConnector.chargeForJob`: with no Stripe key configured it
falls through to `simulatePayment`; with a backend configured it attempts
the PaymentIntent (outcome abstracted as `stripeFails`) and records one
payment row with status `pending` on success or `failed` on a thrown
error.  No branch special-cases `amount = 0`. -/
def chargeForJob (configured stripeFails : Bool) (rand : ℚ)
    (payDb : List Payment) (jobId userId : String) (amount : ℚ)
    (description : String) (pid : String) (now : Int) :
    List Payment × PaymentResult :=
  if !configured then simulatePayment payDb jobId amount rand pid now
  else if stripeFails then
    (payDb ++ [{ id := pid, jobId := jobId, amount := amount,
                 status := "failed", createdAt := now }],
     { success := false, paymentId := some pid,
       error := some "Stripe payment failed", amount := amount })
  else
    (payDb ++ [{ id := pid, jobId := jobId, amount := amount,
                 status := "pending", createdAt := now }],
     { success := true, paymentId := some pid, error := none,
       amount := amount })

/-- Insert a row into a list already sorted by `createdAt` descending,
keeping it sorted (newest first). -/
def insertByCreatedDesc (j : Job) : List Job → List Job
  | [] => [j]
  | x :: xs =>
    if x.createdAt < j.createdAt then j :: x :: xs
    else x :: insertByCreatedDesc j xs

/-- `ORDER BY created_at DESC` over a row list. -/
def sortByCreatedDesc (store : List Job) : List Job :=
  store.foldr insertByCreatedDesc []

/-- JavaScript truthiness of an optional query/body string: present and
non-empty. -/
def truthy : Option String → Bool
  | none => false
  | some s => s != ""

/-- `JobQueue.listJobsForUser`: rows of the user (AND the status filter
when a truthy status is given), newest first, capped at `limit`. -/
def listJobsForUser (store : List Job) (userId : String) (limit : Nat)
    (status : Option String) : List Job :=
  let rows := store.filter fun j =>
    j.userId == userId &&
      (match status with
       | some s => if s == "" then true else j.status == s
       | none => true)
  (sortByCreatedDesc rows).take limit

/-- `JobQueue.listAllJobs`: all rows (status-filtered when a truthy
status is given), newest first, capped at `limit`. -/
def listAllJobs (store : List Job) (limit : Nat) (status : Option String) :
    List Job :=
  let rows := store.filter fun j =>
    match status with
    | some s => if s == "" then true else j.status == s
    | none => true
  (sortByCreatedDesc rows).take limit

/-- The UUID shape tested by `index.ts`'s
`/^[0-9a-f]{8}-[0-9a-f]{4}-[0-9a-f]{4}-[0-9a-f]{4}-[0-9a-f]{12}$/i`:
hexadecimal digit of either case. -/
def isHexChar (c : Char) : Bool :=
  c.isDigit || ('a' ≤ c && c ≤ 'f') || ('A' ≤ c && c ≤ 'F')

/-- The `index.ts` UUID test: 36 characters, dashes exactly at positions
8, 13, 18 and 23, hex digits (case-insensitive) everywhere else. -/
def isValidUUID (s : String) : Bool :=
  let cs := s.toList
  cs.length == 36 &&
    (List.range 36).all fun i =>
      if i == 8 || i == 13 || i == 18 || i == 23 then cs.getD i ' ' == '-'
      else isHexChar (cs.getD i ' ')

/-- The HTTP outcome of `POST /jobs/assign`. -/
inductive AssignResult where
  | badRequest
  | notAvailable
  | noJob
  | assignFailed
  | serverError
  | ok (job : Job) (config : ContainerConfig)
deriving Repr, DecidableEq

/-- The `POST /jobs/assign` handler (index.ts): reject a falsy provider
id; reject a provider that is missing or not `online`; read the next
queued job (`getNextJob`); update it (`assignJob`); generate the
container config — a thrown validation error is caught by the handler's
catch-all, which answers 500 with the job left exactly as `assignJob`
wrote it (status `assigned`, provider set) and the provider untouched;
on success mark the provider `busy` and answer with job and config. -/
def jobsAssignHandler (w : World) (providerId : String) (now : Int) :
    World × AssignResult :=
  if providerId = "" then (w, .badRequest)
  else
    match w.providers.find? (fun p => p.id == providerId) with
    | none => (w, .notAvailable)
    | some p =>
      if p.status ≠ "online" then (w, .notAvailable)
      else
        match getNextJob w.jobs with
        | none => (w, .noJob)
        | some nextJob =>
          let res := assignJob w.jobs nextJob.id providerId now
          let w' : World := { w with jobs := res.1 }
          match res.2 with
          | none => (w', .assignFailed)
          | some assignedJob =>
            match generateContainerConfig assignedJob.dockerImage
                (match assignedJob.command with
                 | some c => if c == "" then none else some c
                 | none => none) true with
            | none => (w', .serverError)
            | some config =>
              let providers' := w.providers.map fun q =>
                if q.id == providerId then { q with status := "busy" } else q
              ({ w' with providers := providers' }, .ok assignedJob config)

/-- The HTTP outcome of `POST /jobs/report`. -/
inductive ReportResult where
  | badRequest
  | jobNotFound
  | forbidden
  | invalidStatus
  | ok
deriving Repr, DecidableEq

/-- The environment of a charge attempt: whether a Stripe key is
configured, whether the Stripe call would throw, the `Math.random()`
sample of the simulation, and the generated payment row id. -/
structure ChargeEnv where
  configured : Bool
  stripeFails : Bool
  rand : ℚ
  pid : String
deriving Repr

/-- The completed-report cost computation of `POST /jobs/report`: a
truthy `executionTime` (present and non-zero) is billed directly at the
rate; otherwise the wall clock from the job's CURRENT `startedAt` to now
(0 when `startedAt` is null); the result is rounded to two decimals once
more. -/
def reportCompletedCost (job : Job) (executionTime : Option ℚ) (now : Int) : ℚ :=
  let base : ℚ :=
    match executionTime with
    | some t =>
      if t = 0 then
        match job.startedAt with
        | some s => calculateJobCost s now
        | none => 0
      else t * getComputeRate
    | none =>
      match job.startedAt with
      | some s => calculateJobCost s now
      | none => 0
  round2 base

/-- The failed-report cost computation of `POST /jobs/report`: half the
wall-clock cost from the job's current `startedAt`, re-rounded to cents;
0 when `startedAt` is null. -/
def reportFailedCost (job : Job) (now : Int) : ℚ :=
  match job.startedAt with
  | some s => round2 (calculateJobCost s now * 0.5)
  | none => 0

/-- The `POST /jobs/report` handler (index.ts): after the presence and
ownership checks (the job's providerId must equal the caller's), the
`running` case calls `markJobRunning` unconditionally; the `completed`
case computes the cost, calls `markJobCompleted`, charges whenever the
cost is positive — the job's previous status is NEVER consulted, so a
report on an already-terminal job recomputes and charges again — and
puts the provider back `online`; the `failed` case does the same with
the discounted partial cost. -/
def reportJobHandler (w : World) (jobId providerId status : String)
    (executionTime : Option ℚ) (now : Int) (env : ChargeEnv) :
    World × ReportResult :=
  if jobId = "" ∨ providerId = "" ∨ status = "" then (w, .badRequest)
  else
    match getJob w.jobs jobId with
    | none => (w, .jobNotFound)
    | some job =>
      if job.providerId ≠ some providerId then (w, .forbidden)
      else if status = "running" then
        ({ w with jobs := (markJobRunning w.jobs jobId now).1 }, .ok)
      else if status = "completed" then
        let cost := reportCompletedCost job executionTime now
        let jobs' := (markJobCompleted w.jobs jobId cost now).1
        let payments' :=
          if 0 < cost then
            (chargeForJob env.configured env.stripeFails env.rand w.payments
              jobId job.userId cost
              ("ComputeFabric: GPU compute job " ++ jobId) env.pid now).1
          else w.payments
        let providers' := w.providers.map fun p =>
          if p.id == providerId then { p with status := "online" } else p
        ({ jobs := jobs', providers := providers', payments := payments' }, .ok)
      else if status = "failed" then
        let partialCost := reportFailedCost job now
        let jobs' := (markJobFailed w.jobs jobId partialCost now).1
        let payments' :=
          if 0 < partialCost then
            (chargeForJob env.configured env.stripeFails env.rand w.payments
              jobId job.userId partialCost
              ("ComputeFabric: Partial charge for failed job " ++ jobId)
              env.pid now).1
          else w.payments
        let providers' := w.providers.map fun p =>
          if p.id == providerId then { p with status := "online" } else p
        ({ jobs := jobs', providers := providers', payments := payments' }, .ok)
      else (w, .invalidStatus)

/-- The HTTP outcome of `POST /jobs`. -/
inductive PostJobsResult where
  | badRequest
  | invalidImage
  | created (job : Job)
deriving Repr, DecidableEq

/-- The `POST /jobs` handler (index.ts): reject falsy userId/dockerImage;
when the submitted userId is not UUID-shaped, substitute a freshly
generated random UUID (`freshUserId`); reject an invalid image name;
otherwise insert the job under the substituted id. -/
def postJobsHandler (w : World) (userId dockerImage : String)
    (command : Option String) (freshUserId jobId : String) (now : Int) :
    World × PostJobsResult :=
  if userId = "" ∨ dockerImage = "" then (w, .badRequest)
  else
    let userIdToUse := if isValidUUID userId then userId else freshUserId
    if validateImageName dockerImage = false then (w, .invalidImage)
    else
      let res := createJob w.jobs userIdToUse dockerImage command jobId now
      ({ w with jobs := res.1 }, .created res.2)

/-- The `GET /jobs` handler (index.ts): a truthy but non-UUID `userId`
query parameter short-circuits to the empty list; a UUID-shaped one lists
that user's jobs; an absent/empty one lists all jobs. -/
def getJobsHandler (w : World) (userIdParam : Option String)
    (status : Option String) (limit : Nat) : List Job :=
  let uid := match userIdParam with | some s => s | none => ""
  if truthy userIdParam = true ∧ isValidUUID uid = false then []
  else if truthy userIdParam = true then listJobsForUser w.jobs uid limit status
  else listAllJobs w.jobs limit status

/-- One Job Store mutation of a single job row, with its timestamp and
payload, as performed by the queue's update methods. -/
inductive JobOp where
  | assign (providerId : String) (now : Int)
  | markRunning (now : Int)
  | markCompleted (cost : ℚ) (now : Int)
  | markFailed (cost : ℚ) (now : Int)
deriving Repr

/-- The row-level effect of each Job Store mutation (the `.set` payloads
of job-queue.ts). -/
def applyOp (j : Job) : JobOp → Job
  | .assign providerId now => assignUpdate providerId now j
  | .markRunning now => runningUpdate now j
  | .markCompleted cost now => completedUpdate cost now j
  | .markFailed cost now => failedUpdate cost now j

/-- The source-state precondition of each mutation in the spec's job
state machine: claim from `queued`, run from `assigned`, finish from
`assigned` or `running`.  (The source's UPDATEs do not themselves check
this; see the terminal-state results below.) -/
def opAllowed (j : Job) : JobOp → Bool
  | .assign _ _ => j.status == "queued"
  | .markRunning _ => j.status == "assigned"
  | .markCompleted _ _ => j.status == "assigned" || j.status == "running"
  | .markFailed _ _ => j.status == "assigned" || j.status == "running"

/-- Job rows reachable from creation by Job Store mutations that respect
the spec's state-machine preconditions. -/
inductive ReachableJob : Job → Prop where
  | init (jobId userId dockerImage : String) (command : Option String)
      (now : Int) :
      ReachableJob (newJob jobId userId dockerImage command now)
  | step (j : Job) (op : JobOp) (h : ReachableJob j)
      (hop : opAllowed j op = true) : ReachableJob (applyOp j op)

/-- A freshly queued test job (the state right after `createJob`). -/
def queuedJob : Job :=
  newJob "job-1" "user-1" "pytorch/pytorch:latest" none 0

/-- A running test job held by provider `prov-A` since time 0. -/
def runningJob : Job :=
  { id := "job-1", userId := "user-1", providerId := some "prov-A",
    dockerImage := "pytorch/pytorch:latest", command := none,
    status := "running", createdAt := 0, startedAt := some 0,
    finishedAt := none, cost := 0 }

/-- A registered online provider. -/
def onlineProvider : Provider :=
  { id := "prov-A", ownerId := none, status := "online", createdAt := 0 }

/-- A busy provider (its job is in flight). -/
def busyProvider : Provider :=
  { id := "prov-A", ownerId := none, status := "busy", createdAt := 0 }

/-- World for the double-charge run: one running job, its busy provider,
no payments yet. -/
def reportWorld : World :=
  { jobs := [runningJob], providers := [busyProvider], payments := [] }

/-- Charge environment with no Stripe key configured (simulation mode)
and a `Math.random()` draw of 0 (simulated success). -/
def simEnv : ChargeEnv :=
  { configured := false, stripeFails := false, rand := 0, pid := "pay-1" }

/-- A queued job whose image reference is empty — the value `dbJobToJob`
produces for a row with a null `docker_image` column — so that container
config generation throws at assignment time. -/
def badImageJob : Job :=
  { id := "job-1", userId := "user-1", providerId := none,
    dockerImage := "", command := none, status := "queued", createdAt := 0,
    startedAt := none, finishedAt := none, cost := 0 }

/-- World for the failed-config-generation run: one queued job with an
invalid image, one online provider. -/
def badImageWorld : World :=
  { jobs := [badImageJob], providers := [onlineProvider], payments := [] }

/-- World for the zero-cost-completion run: one running job started at
time 0, its busy provider, no payments. -/
def zeroCostWorld : World :=
  { jobs := [runningJob], providers := [busyProvider], payments := [] }

theorem round2_zero : round2 0 = 0 := by
  unfold round2 jsRound
  norm_num

theorem round2_round2 (x : ℚ) : round2 (round2 x) = round2 x := by
  unfold round2 jsRound
  rw [div_mul_cancel₀ _ (by norm_num : (100 : ℚ) ≠ 0), Int.floor_int_add]
  norm_num

theorem round2_nonneg (x : ℚ) (h : 0 ≤ x) : 0 ≤ round2 x := by
  unfold round2 jsRound
  apply div_nonneg _ (by norm_num)
  have h2 : (0 : ℚ) ≤ x * 100 + 1/2 := by nlinarith
  exact_mod_cast Int.le_floor.mpr (by exact_mod_cast h2)

theorem calculateJobCost_self (t : Int) : calculateJobCost t t = 0 := by
  unfold calculateJobCost
  rw [sub_self]
  norm_num [round2_zero]

/-- C1 (code bug): the claim operation is not atomic.  `getNextJob` is a
plain SELECT and `assignJob` an UPDATE guarded only by the job id, so in
the interleaving A.getNextJob; B.getNextJob; A.assignJob; B.assignJob of
two concurrent callers (two scheduler ticks, or a tick racing the
`/jobs/assign` handler) over a single queued job, both callers read the
same job, both `assignJob` calls succeed and return the job as assigned
to the respective caller, and the job's providerId is written twice —
first `prov-A`, then overwritten with `prov-B` — on a single
queued-to-assigned transition. -/
theorem claim_C1_concurrent_claim_not_atomic :
    (getNextJob [queuedJob]).map Job.id = some "job-1" ∧
    ((assignJob [queuedJob] "job-1" "prov-A" 5).2.map Job.status
        = some "assigned" ∧
      (assignJob [queuedJob] "job-1" "prov-A" 5).2.map Job.providerId
        = some (some "prov-A")) ∧
    ((assignJob (assignJob [queuedJob] "job-1" "prov-A" 5).1
          "job-1" "prov-B" 6).2.map Job.status = some "assigned" ∧
      (assignJob (assignJob [queuedJob] "job-1" "prov-A" 5).1
          "job-1" "prov-B" 6).2.map Job.providerId = some (some "prov-B")) ∧
    (assignJob [queuedJob] "job-1" "prov-A" 5).1.map Job.providerId
        = [some "prov-A"] ∧
    (assignJob (assignJob [queuedJob] "job-1" "prov-A" 5).1
        "job-1" "prov-B" 6).1.map Job.providerId = [some "prov-B"] := by
  decide

/-- C2 (code bug): the status-update methods UPDATE by id with no
predicate on the previous status, so the sequence createJob,
markJobCompleted, markJobRunning drives one job queued → completed →
running: it enters the terminal status `completed` without ever being
assigned, and then leaves it again. -/
theorem claim_C2_lifecycle_not_enforced :
    (getJob (createJob [] "user-1" "pytorch/pytorch:latest" none
        "job-1" 0).1 "job-1").map Job.status = some "queued" ∧
    (getJob (markJobCompleted (createJob [] "user-1"
        "pytorch/pytorch:latest" none "job-1" 0).1 "job-1" 0 10).1
        "job-1").map Job.status = some "completed" ∧
    (getJob (markJobRunning (markJobCompleted (createJob [] "user-1"
        "pytorch/pytorch:latest" none "job-1" 0).1 "job-1" 0 10).1
        "job-1" 20).1 "job-1").map Job.status = some "running" := by
  decide

/-- C4 (code bug): when container-config generation throws for a freshly
claimed job (here: a queued job whose image reference is empty), the
`/jobs/assign` handler's catch-all answers 500 and the store is left
exactly as `assignJob` wrote it — the job stays `assigned` with its
providerId set and is no longer found by `getNextJob`, so it is NOT
returned to the queue; only the provider half of the claim holds (it
stays `online`). -/
theorem claim_C4_config_failure_loses_job :
    (jobsAssignHandler badImageWorld "prov-A" 5).2
        = AssignResult.serverError ∧
    (getJob (jobsAssignHandler badImageWorld "prov-A" 5).1.jobs
        "job-1").map Job.status = some "assigned" ∧
    (getJob (jobsAssignHandler badImageWorld "prov-A" 5).1.jobs
        "job-1").map Job.providerId = some (some "prov-A") ∧
    getNextJob (jobsAssignHandler badImageWorld "prov-A" 5).1.jobs
        = none ∧
    (jobsAssignHandler badImageWorld "prov-A" 5).1.providers.map
        Provider.status = ["online"] := by
  decide

/-- C5 counterexample: the source regex carries the `i` flag, so
`validateImageName "UPPER:tag"` evaluates to true, not false as the
claim states. -/
theorem claim_C5_counterexample : validateImageName "UPPER:tag" = true := by
  decide

/-- C5 (amended): `validateImageName` accepts `pytorch/pytorch:latest`
and rejects the empty string, but it is case-INsensitive — uppercase
path segments such as `UPPER:tag` are accepted — and its path segments
admit no `-`/`_`/`.` separators, so `my-repo` and `docker_user/img` are
rejected; a trailing empty tag is also rejected. -/
theorem claim_C5_amended :
    validateImageName "pytorch/pytorch:latest" = true ∧
    validateImageName "" = false ∧
    validateImageName "UPPER:tag" = true ∧
    validateImageName "my-repo" = false ∧
    validateImageName "docker_user/img" = false ∧
    validateImageName "pytorch/pytorch:" = false ∧
    validateImageName "nvidia/cuda:11.7.1-base-ubuntu22.04" = true := by
  decide

/-- C6 counterexample: `calculateJobCost` does not clamp negative
durations, so with `endedAt` one minute before `startedAt` the computed
cost is -0.10, which is negative — contradicting the claimed
`max(0, ...)` behaviour. -/
theorem claim_C6_counterexample : calculateJobCost 60000 0 < 0 := by
  unfold calculateJobCost getComputeRate round2 jsRound
  norm_num

/-- C6 (amended): `calculateJobCost` is `(endedAt - startedAt)` in
minutes times the rate, rounded to two decimals with halves toward
positive infinity, with NO `max(0, ·)` clamp: whenever `endedAt ≥
startedAt` the result is non-negative, `calculateJobCost t t = 0`, and
ten minutes at $0.10/min cost exactly 1.00 — but a reversed pair of
timestamps yields a negative cost (see the counterexample). -/
theorem claim_C6_amended :
    (∀ startTime endTime : Int, startTime ≤ endTime →
        0 ≤ calculateJobCost startTime endTime) ∧
    (∀ t : Int, calculateJobCost t t = 0) ∧
    (∀ t : Int, calculateJobCost t (t + 600000) = 1) := by
  refine ⟨?_, calculateJobCost_self, ?_⟩
  · intro s e h
    unfold calculateJobCost
    apply round2_nonneg
    have hd : (0 : ℚ) ≤ (e : ℚ) - (s : ℚ) := by
      rw [sub_nonneg]
      exact_mod_cast h
    have hr : (0 : ℚ) ≤ getComputeRate := by norm_num [getComputeRate]
    positivity
  · intro t
    unfold calculateJobCost
    have hd : ((t + 600000 : ℤ) : ℚ) - (t : ℚ) = 600000 := by
      push_cast
      ring
    rw [hd]
    unfold getComputeRate round2 jsRound
    norm_num

/-- Witness for C6 at a concrete ten-minute interval. -/
theorem claim_C6_witness :
    (0 : Int) ≤ 600000 ∧ 0 ≤ calculateJobCost 0 600000 :=
  ⟨by decide, claim_C6_amended.1 0 600000 (by decide)⟩

theorem chargeForJob_length (configured stripeFails : Bool) (rand : ℚ)
    (payDb : List Payment) (jobId userId : String) (amount : ℚ)
    (description pid : String) (now : Int) :
    ((chargeForJob configured stripeFails rand payDb jobId userId amount
        description pid now).1).length = payDb.length + 1 := by
  cases configured <;> cases stripeFails <;>
    simp [chargeForJob, simulatePayment]

theorem reportCompleted_effect (w : World) (jobId providerId : String)
    (exec : Option ℚ) (now : Int) (env : ChargeEnv) (j : Job)
    (h1 : jobId ≠ "") (h2 : providerId ≠ "")
    (hj : getJob w.jobs jobId = some j)
    (hp : j.providerId = some providerId) :
    reportJobHandler w jobId providerId "completed" exec now env
      = ({ jobs := (markJobCompleted w.jobs jobId
              (reportCompletedCost j exec now) now).1,
           providers := w.providers.map fun p =>
             if p.id == providerId then { p with status := "online" } else p,
           payments :=
             if 0 < reportCompletedCost j exec now then
               (chargeForJob env.configured env.stripeFails env.rand
                 w.payments jobId j.userId (reportCompletedCost j exec now)
                 ("ComputeFabric: GPU compute job " ++ jobId) env.pid now).1
             else w.payments }, ReportResult.ok) := by
  unfold reportJobHandler
  rw [if_neg (by simp [h1, h2])]
  split
  · rename_i heq
    rw [hj] at heq
    exact absurd heq (by simp)
  · rename_i job heq
    rw [hj] at heq
    injection heq with heq
    subst heq
    rw [if_neg (by simp [hp]), if_neg (by decide), if_pos rfl]

theorem reportCompletedCost_exec10 (job : Job) (now : Int) :
    reportCompletedCost job (some 10) now = 1 := by
  unfold reportCompletedCost getComputeRate round2 jsRound
  norm_num

/-- C3 (code bug): the `/jobs/report` completed case never checks that
the job is still non-terminal before charging: starting from one running
job and no payments, a completed report (10 reported minutes, $1.00)
records one payment and marks the job completed, and the SAME report
retried afterwards passes the provider-match check again and records a
second payment — two completion-triggered charges for one job. -/
theorem claim_C3_retried_completion_double_charges :
    ((reportJobHandler reportWorld "job-1" "prov-A" "completed" (some 10)
        600000 simEnv).1).payments.length = 1 ∧
    (getJob ((reportJobHandler reportWorld "job-1" "prov-A" "completed"
        (some 10) 600000 simEnv).1).jobs "job-1").map Job.status
      = some "completed" ∧
    ((reportJobHandler (reportJobHandler reportWorld "job-1" "prov-A"
        "completed" (some 10) 600000 simEnv).1 "job-1" "prov-A"
        "completed" (some 10) 1200000 simEnv).1).payments.length = 2 := by
  have e1 := reportCompleted_effect reportWorld "job-1" "prov-A" (some 10)
      600000 simEnv runningJob (by decide) (by decide) rfl rfl
  rw [reportCompletedCost_exec10] at e1
  rw [if_pos (show (0 : ℚ) < 1 by norm_num)] at e1
  have e2 := reportCompleted_effect
      ((reportJobHandler reportWorld "job-1" "prov-A" "completed" (some 10)
        600000 simEnv).1) "job-1" "prov-A" (some 10) 1200000 simEnv
      (completedUpdate 1 600000 runningJob) (by decide) (by decide)
      (by rw [e1]; rfl) (by rfl)
  rw [reportCompletedCost_exec10] at e2
  rw [if_pos (show (0 : ℚ) < 1 by norm_num)] at e2
  refine ⟨?_, ?_, ?_⟩
  · rw [e1]
    simp [chargeForJob_length, reportWorld]
  · rw [e1]
    rfl
  · rw [e2, chargeForJob_length, e1, chargeForJob_length]
    rfl

/-- C7 counterexample: invoking the charge operation with amount 0
creates one Payment record, not zero — in the simulation path (no key
configured) and in the real-backend path alike. -/
theorem claim_C7_counterexample :
    ((chargeForJob false false 0 [] "job-1" "user-1" 0
        "ComputeFabric: GPU compute job job-1" "pay-1" 0).1).length = 1 ∧
    ((chargeForJob true false 0 [] "job-1" "user-1" 0
        "ComputeFabric: GPU compute job job-1" "pay-1" 0).1).length = 1 := by
  decide

/-- C7 (amended): `chargeForJob` does not special-case amount 0 — every
invocation, simulated or real, appends exactly one Payment record; the
zero-charge guard lives in the `/jobs/report` handler instead, which
only calls `chargeForJob` when the computed cost is positive, so a
completed report whose wall-clock cost is zero (started and reported at
the same instant) leaves the payments table unchanged. -/
theorem claim_C7_amended :
    (∀ (configured stripeFails : Bool) (rand : ℚ) (payDb : List Payment)
        (jobId userId : String) (amount : ℚ) (description pid : String)
        (now : Int),
      ((chargeForJob configured stripeFails rand payDb jobId userId amount
          description pid now).1).length = payDb.length + 1) ∧
    (∀ (w : World) (jobId providerId : String) (env : ChargeEnv) (j : Job)
        (now : Int),
      jobId ≠ "" → providerId ≠ "" →
      getJob w.jobs jobId = some j → j.providerId = some providerId →
      j.startedAt = some now →
      ((reportJobHandler w jobId providerId "completed" none now
          env).1).payments = w.payments) := by
  constructor
  · exact chargeForJob_length
  · intro w jobId providerId env j now h1 h2 hj hp hs
    rw [reportCompleted_effect w jobId providerId none now env j h1 h2 hj hp]
    have hc : reportCompletedCost j none now = 0 := by
      unfold reportCompletedCost
      rw [hs]
      simp [calculateJobCost_self, round2_zero]
    simp [hc]

/-- Witness for C7: a job started at time 0 and reported completed at
time 0 triggers no charge. -/
theorem claim_C7_witness :
    ("job-1" : String) ≠ "" ∧ ("prov-A" : String) ≠ "" ∧
    getJob zeroCostWorld.jobs "job-1" = some runningJob ∧
    runningJob.providerId = some "prov-A" ∧
    runningJob.startedAt = some 0 ∧
    ((reportJobHandler zeroCostWorld "job-1" "prov-A" "completed" none 0
        simEnv).1).payments = zeroCostWorld.payments :=
  ⟨by decide, by decide, rfl, rfl, rfl,
   claim_C7_amended.2 zeroCostWorld "job-1" "prov-A" simEnv runningJob 0
     (by decide) (by decide) rfl rfl rfl⟩

theorem reachable_invariant (j : Job) (h : ReachableJob j) :
    (j.status = "queued" ∨ j.status = "assigned" ∨ j.status = "running" ∨
      j.status = "completed" ∨ j.status = "failed") ∧
    (j.startedAt ≠ none ↔ j.status ≠ "queued") ∧
    (j.providerId ≠ none ↔ j.status ≠ "queued") ∧
    (j.finishedAt ≠ none ↔ (j.status = "completed" ∨ j.status = "failed")) ∧
    (j.status = "completed" ∨ j.status = "failed" ∨ j.cost = 0) := by
  induction h with
  | init jobId userId dockerImage command now =>
    simp [newJob]
  | step j op hr hop ih =>
    obtain ⟨hs, h1, h2, h3, h4⟩ := ih
    cases op with
    | assign p t =>
      simp only [opAllowed, beq_iff_eq] at hop
      have hfin : j.finishedAt = none := by
        by_contra hne
        rcases h3.mp hne with hc | hc <;> rw [hop] at hc <;> simp at hc
      have hcost : j.cost = 0 := by
        rcases h4 with hc | hc | hc
        · rw [hop] at hc; simp at hc
        · rw [hop] at hc; simp at hc
        · exact hc
      simp [applyOp, assignUpdate, hfin, hcost]
    | markRunning t =>
      simp only [opAllowed, beq_iff_eq] at hop
      have hprov : j.providerId ≠ none := h2.mpr (by rw [hop]; simp)
      have hfin : j.finishedAt = none := by
        by_contra hne
        rcases h3.mp hne with hc | hc <;> rw [hop] at hc <;> simp at hc
      have hcost : j.cost = 0 := by
        rcases h4 with hc | hc | hc
        · rw [hop] at hc; simp at hc
        · rw [hop] at hc; simp at hc
        · exact hc
      simp [applyOp, runningUpdate, hprov, hfin, hcost]
    | markCompleted c t =>
      simp only [opAllowed, Bool.or_eq_true, beq_iff_eq] at hop
      have hq : j.status ≠ "queued" := by
        rcases hop with hc | hc <;> rw [hc] <;> simp
      have hstart : j.startedAt ≠ none := h1.mpr hq
      have hprov : j.providerId ≠ none := h2.mpr hq
      simp [applyOp, completedUpdate, hstart, hprov]
    | markFailed c t =>
      simp only [opAllowed, Bool.or_eq_true, beq_iff_eq] at hop
      have hq : j.status ≠ "queued" := by
        rcases hop with hc | hc <;> rw [hc] <;> simp
      have hstart : j.startedAt ≠ none := h1.mpr hq
      have hprov : j.providerId ≠ none := h2.mpr hq
      simp [applyOp, failedUpdate, hstart, hprov]

/-- C8 counterexample: the record reached by creating a job and then
assigning it — the claim operation's own normal path — has status
`assigned` and a non-null `startedAt` (because `assignJob` writes
`startedAt = new Date()` already at assignment), refuting the claimed
equivalence of non-null `startedAt` with status ∈ {running, completed,
failed}. -/
theorem claim_C8_counterexample :
    ReachableJob (applyOp (newJob "job-1" "user-1"
        "pytorch/pytorch:latest" none 0) (JobOp.assign "prov-A" 5)) ∧
    (applyOp (newJob "job-1" "user-1" "pytorch/pytorch:latest" none 0)
        (JobOp.assign "prov-A" 5)).startedAt ≠ none ∧
    ¬((applyOp (newJob "job-1" "user-1" "pytorch/pytorch:latest" none 0)
          (JobOp.assign "prov-A" 5)).status = "running" ∨
      (applyOp (newJob "job-1" "user-1" "pytorch/pytorch:latest" none 0)
          (JobOp.assign "prov-A" 5)).status = "completed" ∨
      (applyOp (newJob "job-1" "user-1" "pytorch/pytorch:latest" none 0)
          (JobOp.assign "prov-A" 5)).status = "failed") :=
  ⟨ReachableJob.step _ _ (ReachableJob.init _ _ _ _ _) (by decide),
   by decide, by decide⟩

/-- C8 (amended): for every job record reachable from creation by Job
Store transitions respecting the spec's state-machine preconditions
(assign from queued, markRunning from assigned, markCompleted/markFailed
from assigned or running), `startedAt` is non-null iff the status is in
{assigned, running, completed, failed} — i.e. already from assignment on
— and a provider has been assigned; `finishedAt` is non-null iff the
status is completed or failed; and the cost is 0 until the status is
completed or failed. -/
theorem claim_C8_amended (j : Job) (h : ReachableJob j) :
    (j.startedAt ≠ none ↔
      ((j.status = "assigned" ∨ j.status = "running" ∨
        j.status = "completed" ∨ j.status = "failed") ∧
       j.providerId ≠ none)) ∧
    (j.finishedAt ≠ none ↔ (j.status = "completed" ∨ j.status = "failed")) ∧
    (¬(j.status = "completed" ∨ j.status = "failed") → j.cost = 0) := by
  obtain ⟨hs, h1, h2, h3, h4⟩ := reachable_invariant j h
  refine ⟨?_, h3, ?_⟩
  · rw [h1]
    constructor
    · intro hq
      refine ⟨?_, h2.mpr hq⟩
      rcases hs with hc | hc | hc | hc | hc
      · exact absurd hc hq
      all_goals tauto
    · rintro ⟨hset, _⟩
      rcases hset with hc | hc | hc | hc <;> rw [hc] <;> simp
  · intro hnt
    rcases h4 with hc | hc | hc
    · exact absurd (Or.inl hc) hnt
    · exact absurd (Or.inr hc) hnt
    · exact hc

/-- Witness for C8 at the concrete record created at time 0 and assigned
to `prov-A` at time 5. -/
theorem claim_C8_witness :
    ((applyOp (newJob "job-2" "user-1" "pytorch/pytorch:latest" none 0)
        (JobOp.assign "prov-A" 5)).startedAt ≠ none ↔
      (((applyOp (newJob "job-2" "user-1" "pytorch/pytorch:latest" none 0)
            (JobOp.assign "prov-A" 5)).status = "assigned" ∨
        (applyOp (newJob "job-2" "user-1" "pytorch/pytorch:latest" none 0)
            (JobOp.assign "prov-A" 5)).status = "running" ∨
        (applyOp (newJob "job-2" "user-1" "pytorch/pytorch:latest" none 0)
            (JobOp.assign "prov-A" 5)).status = "completed" ∨
        (applyOp (newJob "job-2" "user-1" "pytorch/pytorch:latest" none 0)
            (JobOp.assign "prov-A" 5)).status = "failed") ∧
       (applyOp (newJob "job-2" "user-1" "pytorch/pytorch:latest" none 0)
          (JobOp.assign "prov-A" 5)).providerId ≠ none)) ∧
    ((applyOp (newJob "job-2" "user-1" "pytorch/pytorch:latest" none 0)
        (JobOp.assign "prov-A" 5)).finishedAt ≠ none ↔
      ((applyOp (newJob "job-2" "user-1" "pytorch/pytorch:latest" none 0)
          (JobOp.assign "prov-A" 5)).status = "completed" ∨
       (applyOp (newJob "job-2" "user-1" "pytorch/pytorch:latest" none 0)
          (JobOp.assign "prov-A" 5)).status = "failed")) ∧
    (¬((applyOp (newJob "job-2" "user-1" "pytorch/pytorch:latest" none 0)
          (JobOp.assign "prov-A" 5)).status = "completed" ∨
       (applyOp (newJob "job-2" "user-1" "pytorch/pytorch:latest" none 0)
          (JobOp.assign "prov-A" 5)).status = "failed") →
      (applyOp (newJob "job-2" "user-1" "pytorch/pytorch:latest" none 0)
          (JobOp.assign "prov-A" 5)).cost = 0) :=
  claim_C8_amended _
    (ReachableJob.step _ _ (ReachableJob.init _ _ _ _ _) (by decide))

/-- C9 (confirmed): `markJobRunning` overwrites `startedAt` with the
time of the running report even though assignment had already set it, so
the wall-clock cost a later completed report computes (no reported
execution time) is `calculateJobCost` from the running-report time, not
from the assignment time. -/
theorem claim_C9_running_overwrites_startedAt (j : Job) (p : String)
    (t1 t2 t3 : Int) :
    (assignUpdate p t1 j).startedAt = some t1 ∧
    (runningUpdate t2 (assignUpdate p t1 j)).startedAt = some t2 ∧
    reportCompletedCost (runningUpdate t2 (assignUpdate p t1 j)) none t3
      = calculateJobCost t2 t3 := by
  refine ⟨rfl, rfl, ?_⟩
  show round2 (calculateJobCost t2 t3) = calculateJobCost t2 t3
  unfold calculateJobCost
  exact round2_round2 _

/-- C10 (confirmed): a `POST /jobs` whose userId is not UUID-shaped
creates the job under the freshly generated UUID instead of the
submitted identifier, and a `GET /jobs` query for that non-UUID
identifier short-circuits to the empty list, whatever the stored jobs
are — so such a job can never be listed under the identifier its
submitter supplied. -/
theorem claim_C10_nonuuid_user_unlistable (w : World)
    (userId dockerImage : String) (command : Option String)
    (freshUserId jobId : String) (now : Int) (status : Option String)
    (limit : Nat) (h1 : isValidUUID userId = false) (h2 : userId ≠ "")
    (h3 : dockerImage ≠ "") (h4 : validateImageName dockerImage = true) :
    (postJobsHandler w userId dockerImage command freshUserId jobId
        now).2
      = PostJobsResult.created (newJob jobId freshUserId dockerImage
          command now) ∧
    getJobsHandler w (some userId) status limit = [] := by
  constructor
  · unfold postJobsHandler
    rw [if_neg (by simp [h2, h3]), if_neg (by simp [h4]), h1]
    rfl
  · unfold getJobsHandler
    rw [if_pos ⟨by simp [truthy, h2], h1⟩]

/-- Witness for C10: the Electron client's `electron-user` identifier. -/
theorem claim_C10_witness :
    (isValidUUID "electron-user" = false ∧ ("electron-user" : String) ≠ "" ∧
     ("pytorch/pytorch:latest" : String) ≠ "" ∧
     validateImageName "pytorch/pytorch:latest" = true) ∧
    (postJobsHandler ⟨[], [], []⟩ "electron-user" "pytorch/pytorch:latest"
        none "11111111-1111-1111-1111-111111111111" "job-1" 0).2
      = PostJobsResult.created (newJob "job-1"
          "11111111-1111-1111-1111-111111111111" "pytorch/pytorch:latest"
          none 0) ∧
    getJobsHandler ⟨[], [], []⟩ (some "electron-user") none 20 = [] :=
  ⟨⟨by decide, by decide, by decide, by decide⟩,
   claim_C10_nonuuid_user_unlistable ⟨[], [], []⟩ "electron-user"
     "pytorch/pytorch:latest" none "11111111-1111-1111-1111-111111111111"
     "job-1" 0 none 20 (by decide) (by decide) (by decide) (by decide)⟩
